import Mathlib

/-!
Verification of the animation-evaluation core of ReadAlong-Video.

The development shallowly embeds the functions of src/svg_snapshot.py,
src/util.py and src/tei_to_svg.py that the specification's claims are
about.  Python floats are modelled as exact rationals (ℚ); the non-finite
float literals (inf/nan) and exponent notation are outside the model, and
Python's round-half-even in string formatting is idealised as
round-half-up (no claim in this development touches a tie).  Python
exceptions are modelled with Except String; a raised exception is an
Except.error value.  XML attribute dictionaries are modelled as
insertion-ordered association lists, matching lxml attribute maps.
-/

namespace RAV

/-- Sum the decimal digits of a character list into a natural number
    (helper for modelling Python float parsing). -/
def digitsToNat (cs : List Char) : Nat :=
  cs.foldl (fun a c => a * 10 + (c.toNat - 48)) 0

/-- Models Python float() on the decimal literals that occur in this
    program: an optional sign, an integer part and an optional fractional
    part, at least one digit in total.  Returns none where Python raises
    ValueError.  Exponent notation, inf/nan and surrounding whitespace are
    outside the model. -/
def parseFloat (cs : List Char) : Option ℚ :=
  let sign : ℚ := if cs.head? = some '-' then -1 else 1
  let body : List Char :=
    if cs.head? = some '-' ∨ cs.head? = some '+' then cs.tail else cs
  let ip := body.takeWhile Char.isDigit
  let afterInt := body.dropWhile Char.isDigit
  match afterInt with
  | [] => if ip.isEmpty then none else some (sign * (digitsToNat ip : ℚ))
  | '.' :: rest =>
    let fp := rest.takeWhile Char.isDigit
    let afterFrac := rest.dropWhile Char.isDigit
    if afterFrac.isEmpty && !(ip.isEmpty && fp.isEmpty) then
      some (sign * ((digitsToNat ip : ℚ) + (digitsToNat fp : ℚ) / (10 : ℚ) ^ fp.length))
    else none
  | _ => none

/-- Python float() applied to a Lean string. -/
def parseFloatS (s : String) : Option ℚ :=
  parseFloat s.data

/-- Models isfloat from src/svg_snapshot.py: True iff float() succeeds. -/
def isfloat (s : String) : Bool :=
  (parseFloatS s).isSome

/-- Turn an optional value into an Except, with the given message for the
    exception case (models a Python call that may raise). -/
def toExcept {α : Type} (o : Option α) (msg : String) : Except String α :=
  match o with
  | some a => Except.ok a
  | none => Except.error msg

/-- Python float modulo for a positive divisor: the representative of a
    mod b in the interval from 0 (inclusive) to b.  Python computes this
    for floats as a - b * floor(a / b), with the sign of the divisor. -/
def pmod (a b : ℚ) : ℚ :=
  a - b * ⌊a / b⌋

/-- List ends with the given suffix (Python str.endswith). -/
def endsWith (cs suffix : List Char) : Bool :=
  decide (cs.drop (cs.length - suffix.length) = suffix)

/-- Models parse_time from src/util.py: parses timestamps like 12:34.56,
    2s, 500ms, 3min, 1h or plain numbers into seconds.  The branches are
    in source order; in particular the endswith("s") test precedes the
    endswith("ms") test. -/
def parse_time (s : String) : Except String ℚ :=
  let cs := s.data
  if cs.contains ':' then
    let parts := cs.splitOn ':'
    match parts.reverse with
    | [] => Except.error "unreachable: str.split returns a nonempty list"
    | p0 :: rest =>
      match parseFloat p0 with
      | none => Except.error "ValueError: could not convert string to float"
      | some r0 =>
        match rest with
        | [] => Except.ok r0
        | p1 :: rest2 =>
          match parseFloat p1 with
          | none => Except.error "ValueError: could not convert string to float"
          | some r1 =>
            match rest2 with
            | [] => Except.ok (r0 + r1 * 60)
            | p2 :: _ =>
              match parseFloat p2 with
              | none => Except.error "ValueError: could not convert string to float"
              | some r2 => Except.ok (r0 + r1 * 60 + r2 * 3600)
  else if endsWith cs ['s'] then
    toExcept (parseFloat (cs.take (cs.length - 1))) "ValueError: could not convert string to float"
  else if endsWith cs ['m', 's'] then
    (toExcept (parseFloat (cs.take (cs.length - 2))) "ValueError: could not convert string to float").map
      (fun v => v / 1000)
  else if endsWith cs ['m', 'i', 'n'] then
    (toExcept (parseFloat (cs.take (cs.length - 3))) "ValueError: could not convert string to float").map
      (fun v => v * 60)
  else if endsWith cs ['h'] then
    (toExcept (parseFloat (cs.take (cs.length - 1))) "ValueError: could not convert string to float").map
      (fun v => v * 3600)
  else
    toExcept (parseFloat cs) "ValueError: could not convert string to float"

/-- Left-pad a fractional part below 1000 to three digits (the digits
    after the decimal point in Python "{:.3f}" formatting). -/
def zpad3 (n : Nat) : String :=
  if n < 10 then "00" ++ Nat.repr n
  else if n < 100 then "0" ++ Nat.repr n
  else Nat.repr n

/-- Models Python "{:.3f}".format applied to an exact rational value:
    round to the nearest thousandth and print with exactly three decimal
    places.  Ties and the negative-zero case are idealised (no claim in
    this development evaluates formatting at such a value). -/
def format3 (q : ℚ) : String :=
  let n : ℤ := round (q * 1000)
  (if n < 0 then "-" else "") ++ Nat.repr (n.natAbs / 1000) ++ "." ++ zpad3 (n.natAbs % 1000)

/-- The timing-relevant state of an Animator from src/svg_snapshot.py:
    begin and dur are the parse_time values of the begin/dur attributes,
    fill is the fill attribute (empty string when absent, as in the
    source's attrib.get("fill", "")), and repeatCount/repeatDur are the
    raw attribute strings when present. -/
structure Timing where
  begin : ℚ
  dur : ℚ
  fill : String
  repeatCount : Option String
  repeatDur : Option String

/-- The fall-through tail of Animator.get_time_position: the final
    time_position formula (time_since_begin mod dur) / dur. -/
def gtp_final (a : Timing) (time_since_begin : ℚ) : Except String ℚ :=
  Except.ok (pmod time_since_begin a.dur / a.dur)

/-- The repeatDur check of Animator.get_time_position, reached when no
    earlier branch returned. -/
def gtp_repeatDur (a : Timing) (time_since_begin : ℚ) : Except String ℚ :=
  match a.repeatDur with
  | some rs =>
    if rs = "indefinite" then gtp_final a time_since_begin
    else
      match parse_time rs with
      | Except.error e => Except.error e
      | Except.ok repeat_dur =>
        if time_since_begin ≥ repeat_dur then
          if a.fill = "freeze" then Except.ok (pmod (repeat_dur - a.begin) a.dur / a.dur)
          else Except.ok (-1)
        else gtp_final a time_since_begin
  | none => gtp_final a time_since_begin

/-- The repeatCount check of Animator.get_time_position. -/
def gtp_repeatCount (a : Timing) (time_since_begin : ℚ) (cycles_since_begin : ℤ) :
    Except String ℚ :=
  match a.repeatCount with
  | some rc =>
    if rc = "indefinite" then gtp_repeatDur a time_since_begin
    else
      match parseFloatS rc with
      | none => Except.error "ValueError: could not convert string to float"
      | some repeat_count =>
        if (cycles_since_begin : ℚ) > repeat_count then
          Except.ok (if a.fill = "freeze" then 1 else -1)
        else gtp_repeatDur a time_since_begin
  | none => gtp_repeatDur a time_since_begin

/-- Models Animator.get_time_position from src/svg_snapshot.py: how far
    along the animation is at time t, as a fraction, with -1 as the
    inactive sentinel.  Mirrors the source's sequence of early returns:
    the pre-begin / non-positive-duration check, the no-repeat-attributes
    check, the repeatCount check, the repeatDur check, and the final
    modulo formula. -/
def get_time_position (a : Timing) (t : ℚ) : Except String ℚ :=
  let time_since_begin := t - a.begin
  if time_since_begin < 0 ∨ a.dur ≤ 0 then Except.ok (-1)
  else
    let cycles_since_begin : ℤ := ⌊time_since_begin / a.dur⌋ + 1
    if a.repeatCount = none ∧ a.repeatDur = none ∧ time_since_begin > a.dur then
      Except.ok (if a.fill = "freeze" then 1 else -1)
    else
      gtp_repeatCount a time_since_begin cycles_since_begin

/-- One regex match attempt at the start of the character list, for the
    pattern NUMBER_SPLITTER = ([-+]?\d*\.?\d+|[-+]?\d+) of
    src/svg_snapshot.py, with Python's leftmost / greedy-with-backtracking
    semantics (the second alternative is subsumed by the first).  Returns
    the matched token and the remaining characters, or none when no match
    starts here. -/
def matchNumBody (sgn body : List Char) : Option (List Char × List Char) :=
  let d1 := body.takeWhile Char.isDigit
  let after1 := body.dropWhile Char.isDigit
  if after1.head? = some '.' then
    let rest1 := after1.tail
    let d2 := rest1.takeWhile Char.isDigit
    let after2 := rest1.dropWhile Char.isDigit
    if d2.isEmpty then
      if d1.isEmpty then none else some (sgn ++ d1, after1)
    else some (sgn ++ d1 ++ '.' :: d2, after2)
  else if d1.isEmpty then none else some (sgn ++ d1, after1)

/-- The match attempt proper: strip an optional leading sign, then match
    digits with an optional dot (with the backtracking fallback when the
    dot is not followed by a digit). -/
def matchNum (cs : List Char) : Option (List Char × List Char) :=
  if cs.head? = some '-' ∨ cs.head? = some '+' then
    matchNumBody (cs.take 1) cs.tail
  else matchNumBody [] cs

/-- The scanning loop of re.split with a capturing group: emit the text
    piece accumulated so far and the matched token at each match, keeping
    the alternation text/match/text/.../text.  Fuel-indexed; the initial
    fuel (the input length) always suffices because every match consumes
    at least one character. -/
def goSplit : Nat → List Char → List Char → List (List Char)
  | 0, cs, acc => [acc.reverse ++ cs]
  | _ + 1, [], acc => [acc.reverse]
  | fuel + 1, c :: cs, acc =>
    match matchNum (c :: cs) with
    | some (tok, rest) => acc.reverse :: tok :: goSplit fuel rest []
    | none => goSplit fuel cs (c :: acc)

/-- Models re.split(NUMBER_SPLITTER, s) from src/svg_snapshot.py:
    alternating non-numeric text pieces and numeric tokens, whose
    concatenation is the input. -/
def splitNums (cs : List Char) : List (List Char) :=
  goSplit cs.length cs []

/-- isfloat on a character-list piece. -/
def isfloatL (p : List Char) : Bool :=
  (parseFloat p).isSome

/-- Models interpolate_value_token from src/svg_snapshot.py.  If both
    tokens parse as floats, returns the linear interpolation at position
    pos, formatted to three decimals, wrapping through the modulus when
    one is supplied; if parsing fails, returns the token when the two are
    equal and raises otherwise.  The assert(mod >= 0) of the source is an
    AssertionError. -/
def interpolate_value_token (s1 s2 : String) (pos : ℚ) (mod : ℚ) : Except String String :=
  if mod < 0 then Except.error "AssertionError"
  else
    match parseFloatS s1, parseFloatS s2 with
    | some w1, some w2 =>
      let v1 := if mod ≠ 0 then pmod w1 mod else w1
      let v2 := if mod ≠ 0 then pmod w2 mod else w2
      let v1 := if mod ≠ 0 ∧ |v1 + mod - v2| < |v1 - v2| then v1 + mod else v1
      let v2 := if mod ≠ 0 ∧ |v2 + mod - v1| < |v2 - v1| then v2 + mod else v2
      let interpolation := v1 + pos * (v2 - v1)
      let interpolation := if mod ≠ 0 then pmod interpolation mod else interpolation
      Except.ok (format3 interpolation)
    | _, _ => if s1 = s2 then Except.ok s1 else Except.error "Cannot interpolate"

/-- The numeric tokens of a value string: the pieces of the split that
    parse as floats (parts1/parts2 in interpolate_values). -/
def partsOf (s : String) : List String :=
  ((splitNums s.data).filter isfloatL).map String.mk

/-- The final loop of interpolate_values: walk the split of s1, replacing
    each numeric piece by the next interpolated result.  Taking from an
    exhausted result list is Python's IndexError. -/
def rebuildResult : List (List Char) → List String → Except String (List Char)
  | [], _ => Except.ok []
  | p :: ps, results =>
    if isfloatL p then
      match results with
      | [] => Except.error "IndexError: list index out of range"
      | r :: rt =>
        match rebuildResult ps rt with
        | Except.ok tail => Except.ok (r.data ++ tail)
        | Except.error e => Except.error e
    else
      match rebuildResult ps results with
      | Except.ok tail => Except.ok (p ++ tail)
      | Except.error e => Except.error e

/-- The list comprehension of interpolate_values: interpolate each pair
    of numeric tokens (with its modulus component) in order, propagating
    the first exception. -/
def interpTokens (pos : ℚ) : List ((String × String) × ℚ) → Except String (List String)
  | [] => Except.ok []
  | ((t1, t2), m) :: rest =>
    match interpolate_value_token t1 t2 pos m with
    | Except.error e => Except.error e
    | Except.ok r =>
      match interpTokens pos rest with
      | Except.error e => Except.error e
      | Except.ok rs => Except.ok (r :: rs)

/-- Models interpolate_values from src/svg_snapshot.py: split both value
    strings, raise when the numeric token counts differ, interpolate the
    numeric tokens pairwise (zipping with the modulus tuple when one is
    supplied, with Python zip truncation; a missing modulus is the token
    call with mod = 0), and re-interleave the results into the
    non-numeric pieces of s1. -/
def interpolate_values (s1 s2 : String) (pos : ℚ) (mod : Option (List ℚ)) :
    Except String String :=
  let splits1 := splitNums s1.data
  let parts1 := (splits1.filter isfloatL).map String.mk
  let parts2 := partsOf s2
  if parts1.length ≠ parts2.length then Except.error "Cannot interpolate"
  else
    match
      (match mod with
       | some m => interpTokens pos ((parts1.zip parts2).zip m)
       | none => interpTokens pos ((parts1.zip parts2).map (fun x => (x, 0)))) with
    | Except.error e => Except.error e
    | Except.ok results =>
      match rebuildResult splits1 results with
      | Except.error e => Except.error e
      | Except.ok out => Except.ok (String.mk out)

/-- Concatenate the pieces of a split. -/
def joinPieces (ps : List (List Char)) : List Char :=
  ps.foldr (fun a b => a ++ b) []

/-- Whether an Except value is a success. -/
def isOkE {α : Type} : Except String α → Bool
  | Except.ok _ => true
  | Except.error _ => false

/-- Index of the first occurrence of pat as a contiguous substring of s
    (Python str.find), used to state in which order two fragments occur
    inside a resolved attribute value. -/
def subPos (pat : List Char) : List Char → Option Nat
  | [] => if pat = [] then some 0 else none
  | c :: rest =>
    if pat.isPrefixOf (c :: rest) then some 0
    else (subPos pat rest).map (· + 1)

/-- An lxml attribute map: an insertion-ordered association list. -/
abbrev AttrMap := List (String × String)

/-- Look up an attribute (first occurrence). -/
def aget : AttrMap → String → Option String
  | [], _ => none
  | (k, v) :: rest, key => if k = key then some v else aget rest key

/-- Look up an attribute with a default (attrib.get(key, default)). -/
def agetD (m : AttrMap) (key d : String) : String :=
  (aget m key).getD d

/-- Write an attribute: replace the value in place when the key exists
    (lxml keeps the position), append otherwise. -/
def aset : AttrMap → String → String → AttrMap
  | [], key, val => [(key, val)]
  | (k, v) :: rest, key, val =>
    if k = key then (k, val) :: rest else (k, v) :: aset rest key val

/-- Models the per-node attribute rewrite of motion_compile from
    src/svg_snapshot.py: when a data-motion-translate accumulator is
    pending, prepend it (with a space) to the current transform attribute;
    then do the same for a pending data-motion-rotate accumulator.  The
    rotate prepend happens second, so it ends up leftmost. -/
def motion_compile_attrs (m : AttrMap) : AttrMap :=
  let m1 :=
    match aget m "data-motion-translate" with
    | some dm => aset m "transform" (dm ++ " " ++ agetD m "transform" "")
    | none => m
  match aget m1 "data-motion-rotate" with
  | some dm => aset m1 "transform" (dm ++ " " ++ agetD m1 "transform" "")
  | none => m1

/-- The variant-specific data of the four animator classes of
    src/svg_snapshot.py.  A MotionAnimator's parsed path object is an
    opaque pure function from the time position to a point, as the svg.path
    library's point method is external to this repository; none when no
    inline path was given (the source's mpath branch then dereferences the
    undefined global name svg).  The tangent-angle computation atan2 +
    degrees is likewise carried as an opaque pure function. -/
inductive AnimSpec where
  | transform (attrib_name transform_type attrib_from attrib_to : String)
  | motion (path : Option (ℚ → ℚ × ℚ)) (attrib_rotate : String) (atan2deg : ℚ → ℚ → ℚ)
  | setval (attrib_name attrib_to : String)
  | value (attrib_name attrib_from attrib_to : String)

/-- An animation primitive as extracted by get_animators: the timing
    attributes, the deep copy of the target's attributes taken at
    construction time (self.target_attrib), and the variant data. -/
structure Animator where
  timing : Timing
  target_attrib : AttrMap
  spec : AnimSpec

/-- The accumulate-or-create pattern used by the apply methods: append
    to the attribute with a separating space when it exists, create it
    otherwise. -/
def append_attr (m : AttrMap) (key r : String) : AttrMap :=
  match aget m key with
  | some old => aset m key (old ++ " " ++ r)
  | none => aset m key r

/-- Models the apply(t) methods of TransformAnimator, MotionAnimator,
    StaticValueAnimator and ValueAnimator from src/svg_snapshot.py,
    acting on the target's attribute map.  All four first compute the
    time position and do nothing when it is negative.  tag is the
    target element's tag (MotionAnimator reads cx/cy instead of x/y for
    circles). -/
def animator_apply (tag : String) (a : Animator) (t : ℚ) (m : AttrMap) :
    Except String AttrMap :=
  match get_time_position a.timing t with
  | Except.error e => Except.error e
  | Except.ok tp =>
    if tp < 0 then Except.ok m
    else
      match a.spec with
      | AnimSpec.transform attrib_name ty f to_ =>
        match
          (if ty = "rotate" then interpolate_values f to_ tp (some [360, 0, 0])
           else interpolate_values f to_ tp none) with
        | Except.error e => Except.error e
        | Except.ok r0 =>
          let result := ty ++ "(" ++ r0 ++ ")"
          if ty = "translate" ∨ ty = "rotate" then
            Except.ok (append_attr m ("data-motion-" ++ ty) result)
          else Except.ok (append_attr m attrib_name result)
      | AnimSpec.motion path attrib_rotate atan2deg =>
        match path with
        | none => Except.error "NameError: name 'svg' is not defined"
        | some p =>
          let point := p tp
          let xl := if tag = "circle" then "cx" else "x"
          let yl := if tag = "circle" then "cy" else "y"
          match
            (match aget m xl with
             | none => Except.ok (0 : ℚ)
             | some s => toExcept (parseFloatS s) "ValueError: could not convert string to float"),
            (match aget m yl with
             | none => Except.ok (0 : ℚ)
             | some s => toExcept (parseFloatS s) "ValueError: could not convert string to float") with
          | Except.ok current_x, Except.ok current_y =>
            let value_x := format3 (current_x + point.1)
            let value_y := format3 (current_y + point.2)
            let translate_str := "translate(" ++ value_x ++ " " ++ value_y ++ ")"
            let m1 := append_attr m "data-motion-translate" translate_str
            if attrib_rotate = "auto" ∨ attrib_rotate = "auto-reverse" then
              let pts : (ℚ × ℚ) × (ℚ × ℚ) :=
                if tp > 999 / 1000 then (p (999 / 1000), point)
                else (point, p (tp + 1 / 1000))
              let angle := atan2deg (pts.2.2 - pts.1.2) (pts.2.1 - pts.1.1)
              let angle := if attrib_rotate = "auto-reverse" then angle + 180 else angle
              let rotate_str :=
                "rotate(" ++ format3 angle ++ " " ++ value_x ++ " " ++ value_y ++ ")"
              Except.ok (append_attr m1 "data-motion-rotate" rotate_str)
            else Except.ok m1
          | Except.error e, _ => Except.error e
          | _, Except.error e => Except.error e
      | AnimSpec.setval attrib_name to_ => Except.ok (aset m attrib_name to_)
      | AnimSpec.value attrib_name f to_ =>
        match interpolate_values f to_ tp none with
        | Except.error e => Except.error e
        | Except.ok v => Except.ok (aset m attrib_name v)

/-- A scene node: its element tag, its current attribute map, and the
    animation primitives extracted from it that target it (in the
    engine's fixed begin-sorted order).  The snapshot engine only ever
    reads or writes a primitive's own target, so attaching each primitive
    to its target preserves the source's global application order. -/
structure SNode where
  tag : String
  attrs : AttrMap
  animators : List Animator

/-- A document: the scene nodes (tree structure is irrelevant to the
    per-node attribute maps, so the traversal order is flattened). -/
abbrev Doc := List SNode

/-- Models Animator.reset_target for all the animators of one node, in
    order: each deletes every attribute and restores its stored original
    copy, so the last animator's copy wins (all copies of one target
    coincide in any document produced by get_animators). -/
def reset_target_attrs (anims : List Animator) (m : AttrMap) : AttrMap :=
  anims.foldl (fun _cur a => a.target_attrib) m

/-- Apply all animators of one node at time t, in order. -/
def apply_all (tag : String) (anims : List Animator) (t : ℚ) (m : AttrMap) :
    Except String AttrMap :=
  match anims with
  | [] => Except.ok m
  | a :: rest =>
    match animator_apply tag a t m with
    | Except.error e => Except.error e
    | Except.ok m2 => apply_all tag rest t m2

/-- The apply phase over the whole document, node by node. -/
def apply_phase (t : ℚ) : Doc → Except String Doc
  | [] => Except.ok []
  | n :: rest =>
    match apply_all n.tag n.animators t n.attrs with
    | Except.error e => Except.error e
    | Except.ok a =>
      match apply_phase t rest with
      | Except.error e => Except.error e
      | Except.ok drest => Except.ok ({ n with attrs := a } :: drest)

/-- Models SnapshotSVG.__getitem__ from src/svg_snapshot.py: reset every
    animator's target, apply every animator at t, then run motion_compile
    over every node. -/
def snapshot (doc : Doc) (t : ℚ) : Except String Doc :=
  let rdoc := doc.map fun n => { n with attrs := reset_target_attrs n.animators n.attrs }
  match apply_phase t rdoc with
  | Except.error e => Except.error e
  | Except.ok adoc =>
    Except.ok (adoc.map fun n => { n with attrs := motion_compile_attrs n.attrs })

/-- Models xpath_id from src/svg_snapshot.py: find the element with the
    given id attribute; raise when there is none, raise when there are
    several. -/
def xpath_id (doc : Doc) (id : String) : Except String SNode :=
  match doc.filter (fun n => decide (aget n.attrs "id" = some id)) with
  | [] => Except.error ("No elements found with id=" ++ id)
  | [n] => Except.ok n
  | _ => Except.error ("Multiple elements found with id=" ++ id)

/-- The target-resolution step of Animator.__init__: self.target =
    xpath_id(svg, target_id); self.target_attrib = deepcopy(...).  Any
    exception from xpath_id propagates out of primitive construction. -/
def animator_init_target (doc : Doc) (target_id : String) : Except String AttrMap :=
  match xpath_id doc target_id with
  | Except.ok n => Except.ok n.attrs
  | Except.error e => Except.error e

/-- HUGE_NUMBER from src/tei_to_svg.py, the not-yet-cued sentinel. -/
def HUGE_NUMBER : ℚ := 10000000000000000

/-- A component of the readalong tree of src/tei_to_svg.py, carrying the
    fields addTimestamp / addMissingTimestamps read and write: id,
    highlight flag, begin_time, end_time (initialised HUGE_NUMBER / -1)
    and the ordered children. -/
inductive RASV where
  | mk (id : String) (highlight : Bool) (begin_time end_time : ℚ) (children : List RASV)

/-- The id of a component. -/
def RASV.ident : RASV → String
  | RASV.mk i _ _ _ _ => i

/-- The begin_time of a component. -/
def RASV.begin_time : RASV → ℚ
  | RASV.mk _ _ b _ _ => b

/-- The end_time of a component. -/
def RASV.end_time : RASV → ℚ
  | RASV.mk _ _ _ e _ => e

/-- The children of a component. -/
def RASV.children : RASV → List RASV
  | RASV.mk _ _ _ _ cs => cs

/-- Models RASVComponent.addTimestamp from src/tei_to_svg.py over a list
    of siblings, in document order: the first node whose subtree holds
    target_id takes the cue (the node itself sets begin/end outright, an
    ancestor folds min/max into its own envelope) and the search stops.
    Fuel-indexed structural recursion; any fuel at least the number of
    tree nodes is enough. -/
def addTimestampList : Nat → List RASV → String → ℚ → ℚ → List RASV × Bool
  | 0, ns, _, _, _ => (ns, false)
  | _ + 1, [], _, _, _ => ([], false)
  | fuel + 1, RASV.mk i hl b e cs :: rest, tid, nb, ne =>
    if i = tid then (RASV.mk i hl nb ne cs :: rest, true)
    else
      match addTimestampList fuel cs tid nb ne with
      | (cs2, true) => (RASV.mk i hl (min nb b) (max ne e) cs2 :: rest, true)
      | _ =>
        match addTimestampList fuel rest tid nb ne with
        | (rest2, found) => (RASV.mk i hl b e cs :: rest2, found)

/-- RASVComponent.addTimestamp entered at a single root. -/
def RASV.addTimestamp (fuel : Nat) (n : RASV) (tid : String) (nb ne : ℚ) : RASV × Bool :=
  match addTimestampList fuel [n] tid nb ne with
  | ([n2], found) => (n2, found)
  | _ => (n, false)

/-- Models RASVComponent.addMissingTimestamps from src/tei_to_svg.py over
    a list of siblings processed in document order.  prevEnd is the end
    time of the previous sibling as already processed (none for the first
    sibling, whose fallback is parentBegin, the parent's begin time at
    this point of the traversal).  A node marked non-highlightable is
    returned untouched and its subtree is skipped.  A node without a
    begin time takes the previous sibling's end (or the parent's begin),
    gives itself a 1/100 duration, and stretches to the next sibling's
    begin time when that is already defined; then its children are
    processed with the node's updated begin as their parent begin.
    Fuel-indexed; fuel at least the number of tree nodes suffices. -/
def addMissingList : Nat → Option ℚ → ℚ → List RASV → List RASV
  | 0, _, _, ns => ns
  | _ + 1, _, _, [] => []
  | fuel + 1, prevEnd, parentBegin, RASV.mk i hl b e cs :: rest =>
    if hl = false then
      RASV.mk i hl b e cs :: addMissingList fuel (some e) parentBegin rest
    else
      let be : ℚ × ℚ :=
        if b = HUGE_NUMBER then
          let nb := match prevEnd with | some pe => pe | none => parentBegin
          let ne0 := nb + 1 / 100
          let ne :=
            match rest with
            | nxt :: _ => if nxt.begin_time ≠ HUGE_NUMBER then nxt.begin_time else ne0
            | [] => ne0
          (nb, ne)
        else (b, e)
      let cs2 := addMissingList fuel none be.1 cs
      RASV.mk i hl be.1 be.2 cs2 :: addMissingList fuel (some be.2) parentBegin rest

/-- RASVComponent.addMissingTimestamps entered at a single root, with the
    root's sibling/parent context supplied explicitly (the source would
    dereference them only if the root itself lacked a begin time). -/
def RASV.addMissingTimestamps (fuel : Nat) (n : RASV) (prevEnd : Option ℚ)
    (parentBegin : ℚ) : RASV :=
  match addMissingList fuel prevEnd parentBegin [n] with
  | [n2] => n2
  | _ => n

/-! Helper lemmas about attribute maps. -/

theorem aget_aset_self (m : AttrMap) (k v : String) : aget (aset m k v) k = some v := by
  induction m with
  | nil => simp [aget, aset]
  | cons hd tl ih =>
    obtain ⟨a, b⟩ := hd
    by_cases h : a = k
    · simp [aget, aset, h]
    · simp [aget, aset, h, ih]

theorem aget_aset_ne (m : AttrMap) (k k2 v : String) (h : k2 ≠ k) :
    aget (aset m k v) k2 = aget m k2 := by
  induction m with
  | nil => simp [aget, aset, h.symm]
  | cons hd tl ih =>
    obtain ⟨a, b⟩ := hd
    by_cases h1 : a = k
    · subst h1
      simp [aget, aset, h.symm]
    · simp [aget, aset, h1, ih]

/-- C1: the Flatten pass puts the pending rotate fragment first, then the
    pending translate fragment, then the author static transform: for any
    node with both accumulators pending, the final transform attribute is
    rotate-fragment, space, translate-fragment, space, static transform.
    (Amended from the claim: the source prepends the translate fragment
    and then prepends the rotate fragment in front of it, so the rotate
    fragment comes first, not the translate fragment.) -/
theorem C1_flatten_order (m : AttrMap) (tr rot st : String)
    (ht : aget m "data-motion-translate" = some tr)
    (hr : aget m "data-motion-rotate" = some rot)
    (hs : aget m "transform" = some st) :
    aget (motion_compile_attrs m) "transform" = some (rot ++ " " ++ (tr ++ " " ++ st)) := by
  have h2 : agetD m "transform" "" = st := by
    simp [agetD, hs]
  have h1 : aget (aset m "transform" (tr ++ " " ++ st)) "data-motion-rotate" = some rot := by
    rw [aget_aset_ne _ _ _ _ (by decide)]
    exact hr
  have h3 : agetD (aset m "transform" (tr ++ " " ++ st)) "transform" "" = tr ++ " " ++ st := by
    simp [agetD, aget_aset_self]
  simp only [motion_compile_attrs, ht, h2, h1, h3, aget_aset_self]

/-- C1 counterexample: on a node with pending fragments
    translate(1 2) and rotate(30 0 0) and static transform scale(2), the
    flattened transform is "rotate(30 0 0) translate(1 2) scale(2)": the
    rotate fragment sits at index 0 and the translate fragment at index
    15, so the translate fragment is not ordered before the rotate
    fragment as the claim states. -/
theorem C1_counterexample :
    aget (motion_compile_attrs
      [("data-motion-translate", "translate(1 2)"),
       ("data-motion-rotate", "rotate(30 0 0)"),
       ("transform", "scale(2)")]) "transform"
      = some "rotate(30 0 0) translate(1 2) scale(2)"
    ∧ subPos "rotate".data "rotate(30 0 0) translate(1 2) scale(2)".data = some 0
    ∧ subPos "translate".data "rotate(30 0 0) translate(1 2) scale(2)".data = some 15 := by
  decide

/-- C1 witness: the amended flatten-order theorem evaluated on the
    counterexample node. -/
theorem C1_witness :
    aget (motion_compile_attrs
      [("data-motion-translate", "translate(1 2)"),
       ("data-motion-rotate", "rotate(30 0 0)"),
       ("transform", "scale(2)")]) "transform"
      = some ("rotate(30 0 0)" ++ " " ++ ("translate(1 2)" ++ " " ++ "scale(2)")) :=
  C1_flatten_order _ "translate(1 2)" "rotate(30 0 0)" "scale(2)"
    (by decide) (by decide) (by decide)

/-- C7: resolving an animation target id that is absent from the tree
    raises a fatal exception out of primitive construction, exactly like
    an ambiguous id; there is no warning-and-no-op fallback.  (Amended
    from the claim: the claim said a missing target is non-fatal and the
    primitive becomes a no-op, but xpath_id raises and Animator.__init__
    propagates the exception.) -/
theorem C7_missing_target_fatal (doc : Doc) (tid : String) :
    ((∀ n ∈ doc, ¬ aget n.attrs "id" = some tid) →
      animator_init_target doc tid = Except.error ("No elements found with id=" ++ tid))
    ∧ (2 ≤ (doc.filter (fun n => decide (aget n.attrs "id" = some tid))).length →
      animator_init_target doc tid = Except.error ("Multiple elements found with id=" ++ tid)) := by
  constructor
  · intro h
    have hf : doc.filter (fun n => decide (aget n.attrs "id" = some tid)) = [] := by
      simp [List.filter_eq_nil_iff]
      exact h
    simp [animator_init_target, xpath_id, hf]
  · intro h
    rcases hf : doc.filter (fun n => decide (aget n.attrs "id" = some tid)) with
      _ | ⟨n1, _ | ⟨n2, rest⟩⟩
    · rw [hf] at h
      simp at h
    · rw [hf] at h
      simp at h
    · simp [animator_init_target, xpath_id, hf]

/-- C7 counterexample: a document whose only node has id r, queried for
    the absent id nope: construction raises the fatal No-elements
    exception (it is not downgraded to a warning and a no-op primitive). -/
theorem C7_counterexample :
    animator_init_target [⟨"rect", [("id", "r")], []⟩] "nope"
      = Except.error "No elements found with id=nope" := by
  rfl

/-- C7 witness: the amended theorem evaluated on a missing id and on an
    ambiguous id. -/
theorem C7_witness :
    animator_init_target [⟨"rect", [("id", "r")], []⟩] "nope"
      = Except.error ("No elements found with id=" ++ "nope")
    ∧ animator_init_target [⟨"g", [("id", "a")], []⟩, ⟨"g", [("id", "a")], []⟩] "a"
      = Except.error ("Multiple elements found with id=" ++ "a") :=
  ⟨(C7_missing_target_fatal [⟨"rect", [("id", "r")], []⟩] "nope").1 (by decide),
   (C7_missing_target_fatal [⟨"g", [("id", "a")], []⟩, ⟨"g", [("id", "a")], []⟩] "a").2
     (by decide)⟩

/-- C9: interpolating the value 350 toward 10 halfway with the modulus
    tuple the rotate path passes reduces both endpoints mod 360, shifts
    the higher endpoint across the boundary (10 becomes 370), lands on
    360, and reduces back into the range, formatting as "0.000". -/
theorem C9_modulus_wraparound :
    interpolate_values "350" "10" (1/2) (some [360, 0, 0]) = Except.ok "0.000" := by
  simp [interpolate_values, splitNums, goSplit, matchNum, partsOf, isfloatL,
    interpolate_value_token, parseFloatS, parseFloat, digitsToNat, pmod, format3,
    round_eq, zpad3, rebuildResult, interpTokens]
  norm_num
  all_goals rfl

/-- C3: with a finite repeatDur, no repeatCount, positive duration, query
    at or after begin and elapsed at least the repeat duration, the timing
    model returns the frozen fraction ((repeat_dur - begin) mod dur) / dur
    when fill is freeze, and the inactive sentinel -1 otherwise. -/
theorem C3_repeat_duration_freeze (b d t rd : ℚ) (fill rs : String)
    (hd : 0 < d) (hbt : b ≤ t) (hind : rs ≠ "indefinite")
    (hp : parse_time rs = Except.ok rd) (he : rd ≤ t - b) :
    get_time_position ⟨b, d, "freeze", none, some rs⟩ t
      = Except.ok (pmod (rd - b) d / d)
    ∧ (fill ≠ "freeze" →
      get_time_position ⟨b, d, fill, none, some rs⟩ t = Except.ok (-1)) := by
  have hcond : ¬(t - b < 0 ∨ d ≤ 0) := by
    push_neg
    constructor <;> linarith
  constructor
  · simp only [get_time_position, gtp_repeatCount, gtp_repeatDur, gtp_final]
    rw [if_neg hcond, if_neg (by simp), if_neg hind, hp]
    dsimp only
    rw [if_pos he]
    simp
  · intro hfill
    simp only [get_time_position, gtp_repeatCount, gtp_repeatDur, gtp_final]
    rw [if_neg hcond, if_neg (by simp), if_neg hind, hp]
    dsimp only
    rw [if_pos he, if_neg hfill]

/-- C3 witness: begin 0, dur 1, repeatDur "5s", queried at t = 5. -/
theorem C3_witness :
    get_time_position ⟨0, 1, "freeze", none, some "5s"⟩ 5
      = Except.ok (pmod (5 - 0) 1 / 1)
    ∧ get_time_position ⟨0, 1, "x", none, some "5s"⟩ 5 = Except.ok (-1) :=
  ⟨(C3_repeat_duration_freeze 0 1 5 5 "x" "5s" (by norm_num) (by norm_num) (by decide)
      (by simp [parse_time, parseFloat, parseFloatS, digitsToNat, endsWith, toExcept])
      (by norm_num)).1,
   (C3_repeat_duration_freeze 0 1 5 5 "x" "5s" (by norm_num) (by norm_num) (by decide)
      (by simp [parse_time, parseFloat, parseFloatS, digitsToNat, endsWith, toExcept])
      (by norm_num)).2 (by decide)⟩

/-- C8: before begin or with non-positive duration the timing model is
    inactive; and at t = begin with positive duration the fraction is
    exactly 0, provided any finite repeatCount is at least 1 and any
    finite repeatDur is positive.  (Amended from the claim: with a finite
    repeatCount below 1, or a non-positive finite repeatDur, the model is
    already expired at t = begin and does not return 0.) -/
theorem C8_begin_boundary (a : Timing) (t : ℚ) :
    ((t < a.begin ∨ a.dur ≤ 0) → get_time_position a t = Except.ok (-1))
    ∧ (0 < a.dur →
      (a.repeatCount = none ∨ a.repeatCount = some "indefinite" ∨
        ∃ rc c, a.repeatCount = some rc ∧ rc ≠ "indefinite" ∧ parseFloatS rc = some c ∧ 1 ≤ c) →
      (a.repeatDur = none ∨ a.repeatDur = some "indefinite" ∨
        ∃ rs rd, a.repeatDur = some rs ∧ rs ≠ "indefinite" ∧ parse_time rs = Except.ok rd ∧ 0 < rd) →
      get_time_position a a.begin = Except.ok 0) := by
  constructor
  · intro h
    rcases h with h | h
    · simp only [get_time_position]
      rw [if_pos (Or.inl (by linarith))]
    · simp only [get_time_position]
      rw [if_pos (Or.inr h)]
  · intro hdur hrc hrd
    have hz : a.begin - a.begin = 0 := by ring
    have hfinal : gtp_final a (a.begin - a.begin) = Except.ok 0 := by
      simp only [gtp_final, hz, pmod, zero_div, Int.floor_zero]
      norm_num
    have hrdone : gtp_repeatDur a (a.begin - a.begin) = Except.ok 0 := by
      rcases hrd with h | h | ⟨rs, rd, hh, hne, hpt, hpos⟩
      · simp only [gtp_repeatDur, h]
        exact hfinal
      · simp only [gtp_repeatDur, h, if_pos rfl]
        exact hfinal
      · simp only [gtp_repeatDur, hh]
        rw [if_neg hne, hpt]
        dsimp only
        rw [if_neg (by rw [hz]; exact not_le.mpr hpos)]
        exact hfinal
    have hrcdone : gtp_repeatCount a (a.begin - a.begin)
        (⌊(a.begin - a.begin) / a.dur⌋ + 1) = Except.ok 0 := by
      rcases hrc with h | h | ⟨rc, c, hh, hne, hpf, hc⟩
      · simp only [gtp_repeatCount, h]
        exact hrdone
      · simp only [gtp_repeatCount, h, if_pos rfl]
        exact hrdone
      · simp only [gtp_repeatCount, hh]
        rw [if_neg hne, hpf]
        dsimp only
        have hcast : ((⌊(a.begin - a.begin) / a.dur⌋ + 1 : ℤ) : ℚ) = 1 := by
          rw [hz, zero_div, Int.floor_zero]
          norm_num
        rw [if_neg (by rw [hcast]; exact not_lt.mpr hc)]
        exact hrdone
    simp only [get_time_position]
    rw [if_neg (by rw [hz]; push_neg; exact ⟨by norm_num, by linarith⟩)]
    rw [if_neg (by rintro ⟨h1, h2, h3⟩; rw [hz] at h3; linarith)]
    exact hrcdone

/-- C8 counterexample: an animation with begin 0, dur 1 and
    repeatCount 0.5 is already expired at t = begin: the model returns
    the inactive sentinel, not the Active fraction 0.0 the claim states
    for every repeat-spec. -/
theorem C8_counterexample :
    get_time_position ⟨0, 1, "", some "0.5", none⟩ 0 = Except.ok (-1) := by
  simp [get_time_position, gtp_repeatCount, gtp_repeatDur, gtp_final, parseFloatS,
    parseFloat, digitsToNat, pmod]
  norm_num

/-- C8 witness: begin 2, dur 3, repeatCount "2", repeatDur "7s": inactive
    at t = 1, fraction 0 at t = begin = 2. -/
theorem C8_witness :
    get_time_position ⟨2, 3, "freeze", some "2", some "7s"⟩ 1 = Except.ok (-1)
    ∧ get_time_position ⟨2, 3, "freeze", some "2", some "7s"⟩ 2 = Except.ok 0 :=
  ⟨(C8_begin_boundary ⟨2, 3, "freeze", some "2", some "7s"⟩ 1).1 (Or.inl (by norm_num)),
   (C8_begin_boundary ⟨2, 3, "freeze", some "2", some "7s"⟩ 2).2 (by norm_num)
     (Or.inr (Or.inr ⟨"2", 2, rfl, by decide,
       by simp [parseFloatS, parseFloat, digitsToNat], by norm_num⟩))
     (Or.inr (Or.inr ⟨"7s", 7, rfl, by decide,
       by simp [parse_time, parseFloat, parseFloatS, digitsToNat, endsWith, toExcept],
       by norm_num⟩))⟩

/-! Helper lemmas about takeWhile / dropWhile over an all-satisfying
    prefix, used for parse_time and tokenizer reasoning. -/

theorem tw_all_append (p : Char → Bool) (l1 l2 : List Char) (h : ∀ c ∈ l1, p c = true) :
    (l1 ++ l2).takeWhile p = l1 ++ l2.takeWhile p := by
  induction l1 with
  | nil => simp
  | cons c cs ih =>
    simp only [List.cons_append, List.takeWhile_cons, h c (by simp)]
    simp [ih (fun c2 hc => h c2 (by simp [hc]))]

theorem dw_all_append (p : Char → Bool) (l1 l2 : List Char) (h : ∀ c ∈ l1, p c = true) :
    (l1 ++ l2).dropWhile p = l2.dropWhile p := by
  induction l1 with
  | nil => simp
  | cons c cs ih =>
    simp only [List.cons_append, List.dropWhile_cons, h c (by simp)]
    exact ih (fun c2 hc => h c2 (by simp [hc]))

/-- C10: for any nonempty digit string followed by "ms", parse_time
    raises ValueError: the endswith("s") branch fires first (every string
    ending in "ms" also ends in "s"), so float() is applied to the digits
    followed by the leftover "m" and fails; the millisecond branch is
    unreachable. -/
theorem C10_ms_branch_unreachable (ds : List Char) (h1 : ds ≠ [])
    (h2 : ∀ c ∈ ds, c.isDigit = true) :
    parse_time (String.mk (ds ++ ['m', 's'])) =
      Except.error "ValueError: could not convert string to float" := by
  have hmem : ':' ∉ ds ++ ['m', 's'] := by
    intro hmem
    rcases List.mem_append.mp hmem with hin | hin
    · have := h2 _ hin
      simp at this
    · simp at hin
  have hnc : (ds ++ ['m', 's']).contains ':' = false := by simpa using hmem
  have hends : endsWith (ds ++ ['m', 's']) ['s'] = true := by
    rw [show ds ++ ['m', 's'] = (ds ++ ['m']) ++ ['s'] by simp]
    simp only [endsWith]
    rw [show ((ds ++ ['m']) ++ ['s']).length - (['s'] : List Char).length
          = (ds ++ ['m']).length by simp, List.drop_left]
    simp
  have htake : (ds ++ ['m', 's']).take ((ds ++ ['m', 's']).length - 1) = ds ++ ['m'] := by
    rw [show ds ++ ['m', 's'] = (ds ++ ['m']) ++ ['s'] by simp]
    rw [show ((ds ++ ['m']) ++ ['s']).length - 1 = (ds ++ ['m']).length by simp, List.take_left]
  have hpf : parseFloat (ds ++ ['m']) = none := by
    obtain ⟨d, ds2, rfl⟩ : ∃ d ds2, ds = d :: ds2 := by
      cases ds with
      | nil => exact absurd rfl h1
      | cons d ds2 => exact ⟨d, ds2, rfl⟩
    have hd : d.isDigit = true := h2 d (by simp)
    have hdm : d ≠ '-' := by rintro rfl; simp at hd
    have hdp : d ≠ '+' := by rintro rfl; simp at hd
    have hdw : (d :: ds2 ++ ['m']).dropWhile Char.isDigit = ['m'] := by
      rw [show d :: ds2 ++ ['m'] = (d :: ds2) ++ ['m'] from rfl,
        dw_all_append Char.isDigit (d :: ds2) ['m'] h2]
      simp
    simp only [parseFloat, List.head?]
    rw [if_neg (by simp [hdm, hdp]), hdw]
    rfl
  simp only [parse_time]
  rw [if_neg (by simp only [hnc]; simp), if_pos (by simp only [hends]), htake, hpf]
  rfl

/-- C10 witness: parse_time("500ms") raises instead of returning 0.5. -/
theorem C10_witness :
    parse_time "500ms" = Except.error "ValueError: could not convert string to float" := by
  have := C10_ms_branch_unreachable ['5', '0', '0'] (by decide) (by decide)
  simpa using this

/-- C4: three sibling leaves under one parent; explicit cues [0,1] on
    the first and [3,4] on the third arrive through addTimestamp (which
    also folds the min/max envelope into the parent), and
    addMissingTimestamps then gives the middle leaf begin 1 (the previous
    sibling's end) and end 3 (stretched to the next sibling's begin); the
    parent's cue is the envelope [0,4]. -/
theorem C4_gap_filling :
    (let t0 : RASV := RASV.mk "p" true HUGE_NUMBER (-1)
      [RASV.mk "l1" true HUGE_NUMBER (-1) [],
       RASV.mk "l2" true HUGE_NUMBER (-1) [],
       RASV.mk "l3" true HUGE_NUMBER (-1) []]
     let t1 := (RASV.addTimestamp 10 t0 "l1" 0 1).1
     let t2 := (RASV.addTimestamp 10 t1 "l3" 3 4).1
     RASV.addMissingTimestamps 10 t2 none 0
       = RASV.mk "p" true 0 4
          [RASV.mk "l1" true 0 1 [],
           RASV.mk "l2" true 1 3 [],
           RASV.mk "l3" true 3 4 []]) := by
  simp only [RASV.addTimestamp, addTimestampList, RASV.addMissingTimestamps, addMissingList,
    RASV.begin_time, HUGE_NUMBER]
  norm_num

/-! Tokenizer soundness: a successful match splits off a nonempty prefix,
    so the pieces of a split concatenate back to the input. -/

theorem matchNumBody_sound (sgn body tok rest : List Char)
    (h : matchNumBody sgn body = some (tok, rest)) :
    tok ++ rest = sgn ++ body ∧ tok ≠ [] := by
  have hbody : body.takeWhile Char.isDigit ++ body.dropWhile Char.isDigit = body :=
    List.takeWhile_append_dropWhile Char.isDigit body
  unfold matchNumBody at h
  by_cases h1 : (body.dropWhile Char.isDigit).head? = some '.'
  · rw [if_pos h1] at h
    obtain ⟨a1tail, ha1⟩ : ∃ t, body.dropWhile Char.isDigit = '.' :: t := by
      cases hdw : body.dropWhile Char.isDigit with
      | nil => rw [hdw] at h1; simp at h1
      | cons x xs =>
        rw [hdw] at h1
        simp at h1
        exact ⟨xs, by rw [h1]⟩
    have hat : a1tail.takeWhile Char.isDigit ++ a1tail.dropWhile Char.isDigit = a1tail :=
      List.takeWhile_append_dropWhile Char.isDigit a1tail
    rw [ha1] at h
    simp only [List.tail_cons] at h
    by_cases h2 : (a1tail.takeWhile Char.isDigit).isEmpty
    · rw [if_pos h2] at h
      by_cases h3 : (body.takeWhile Char.isDigit).isEmpty
      · rw [if_pos h3] at h
        exact absurd h (by simp)
      · rw [if_neg h3] at h
        simp only [Option.some.injEq, Prod.mk.injEq] at h
        obtain ⟨htok, hrest⟩ := h
        subst htok
        subst hrest
        constructor
        · rw [List.append_assoc, ← ha1, hbody]
        · intro hx
          rw [List.append_eq_nil] at hx
          rw [hx.2] at h3
          simp at h3
    · rw [if_neg h2] at h
      simp only [Option.some.injEq, Prod.mk.injEq] at h
      obtain ⟨htok, hrest⟩ := h
      subst htok
      subst hrest
      constructor
      · simp only [List.append_assoc, List.cons_append]
        rw [hat, ← ha1, hbody]
      · simp [List.append_eq_nil]
  · rw [if_neg h1] at h
    by_cases h3 : (body.takeWhile Char.isDigit).isEmpty
    · rw [if_pos h3] at h
      exact absurd h (by simp)
    · rw [if_neg h3] at h
      simp only [Option.some.injEq, Prod.mk.injEq] at h
      obtain ⟨htok, hrest⟩ := h
      subst htok
      subst hrest
      constructor
      · rw [List.append_assoc, hbody]
      · intro hx
        rw [List.append_eq_nil] at hx
        rw [hx.2] at h3
        simp at h3

theorem matchNum_sound (cs tok rest : List Char)
    (h : matchNum cs = some (tok, rest)) :
    tok ++ rest = cs ∧ tok ≠ [] := by
  unfold matchNum at h
  by_cases hs : (cs.head? = some '-' ∨ cs.head? = some '+')
  · rw [if_pos hs] at h
    have := matchNumBody_sound _ _ _ _ h
    rcases this with ⟨heq, hne⟩
    refine ⟨?_, hne⟩
    rw [heq]
    cases cs with
    | nil => simp at hs
    | cons c cs2 => simp
  · rw [if_neg hs] at h
    have := matchNumBody_sound _ _ _ _ h
    simpa using this

theorem goSplit_join (fuel : Nat) : ∀ (cs acc : List Char), cs.length ≤ fuel →
    joinPieces (goSplit fuel cs acc) = acc.reverse ++ cs := by
  induction fuel with
  | zero =>
    intro cs acc hle
    have : cs = [] := List.eq_nil_of_length_eq_zero (Nat.le_zero.mp hle)
    subst this
    simp [goSplit, joinPieces]
  | succ fuel ih =>
    intro cs acc hle
    cases cs with
    | nil => simp [goSplit, joinPieces]
    | cons c cs2 =>
      rw [goSplit]
      cases hm : matchNum (c :: cs2) with
      | none =>
        rw [ih cs2 (c :: acc) (by simp only [List.length_cons] at hle; omega)]
        simp
      | some pr =>
        obtain ⟨tok, rest⟩ := pr
        obtain ⟨heq, hne⟩ := matchNum_sound _ _ _ hm
        have hlen : rest.length ≤ fuel := by
          have h1 : tok.length + rest.length = cs2.length + 1 := by
            rw [← List.length_append, heq]
            simp
          have h2 : 1 ≤ tok.length := by
            cases tok with
            | nil => exact absurd rfl hne
            | cons _ _ => simp
          simp only [List.length_cons] at hle
          omega
        simp only [joinPieces, List.foldr_cons]
        rw [show ∀ ps : List (List Char), List.foldr (fun a b => a ++ b) [] ps = joinPieces ps
              from fun _ => rfl]
        rw [ih rest [] hlen]
        simp [heq]

theorem splitNums_join (cs : List Char) : joinPieces (splitNums cs) = cs := by
  have := goSplit_join cs.length cs [] (le_refl _)
  simpa [splitNums] using this

theorem rebuild_no_float (ps : List (List Char)) (rs : List String)
    (h : ∀ p ∈ ps, isfloatL p = false) :
    rebuildResult ps rs = Except.ok (joinPieces ps) := by
  induction ps with
  | nil => simp [rebuildResult, joinPieces]
  | cons p ps2 ih =>
    simp only [rebuildResult]
    rw [if_neg (by simp [h p (by simp)])]
    rw [ih (fun q hq => h q (by simp [hq]))]
    simp [joinPieces]

/-- C5: interpolate(s, s, f) returns s unchanged for every value string s
    containing no numeric tokens; numeric tokens are reformatted to three
    decimals instead (see the counterexample).  (Amended from the claim:
    the round trip holds only for the non-numeric pieces, because numeric
    tokens pass through float parsing and "{:.3f}" formatting.) -/
theorem C5_no_numeric_token_id (s : String) (f : ℚ)
    (h : ∀ p ∈ splitNums s.data, isfloatL p = false) :
    interpolate_values s s f none = Except.ok s := by
  have hfilter : (splitNums s.data).filter isfloatL = [] := by
    rw [List.filter_eq_nil_iff]
    intro p hp
    simp [h p hp]
  have hparts : partsOf s = [] := by
    simp [partsOf, hfilter]
  simp only [interpolate_values, hparts, hfilter]
  simp only [List.map_nil, List.length_nil, ne_eq, not_true_eq_false, if_false,
    List.zip_nil_right, List.zip_nil_left, List.map_nil]
  rw [show interpTokens f [] = Except.ok [] from rfl]
  dsimp only
  rw [rebuild_no_float _ _ h, splitNums_join]

theorem ivt_floats (t1 t2 : String) (f : ℚ) (h1 : isfloat t1 = true) (h2 : isfloat t2 = true) :
    ∃ r, interpolate_value_token t1 t2 f 0 = Except.ok r := by
  obtain ⟨v1, hv1⟩ := Option.isSome_iff_exists.mp (by simpa [isfloat] using h1)
  obtain ⟨v2, hv2⟩ := Option.isSome_iff_exists.mp (by simpa [isfloat] using h2)
  refine ⟨format3 (v1 + f * (v2 - v1)), ?_⟩
  simp only [interpolate_value_token, hv1, hv2]
  norm_num

theorem interpTokens_ok (f : ℚ) (l : List ((String × String) × ℚ))
    (h : ∀ x ∈ l, isfloat x.1.1 = true ∧ isfloat x.1.2 = true ∧ x.2 = 0) :
    ∃ rs, interpTokens f l = Except.ok rs ∧ rs.length = l.length := by
  induction l with
  | nil => exact ⟨[], rfl, rfl⟩
  | cons x xs ih =>
    obtain ⟨⟨t1, t2⟩, m⟩ := x
    obtain ⟨hf1, hf2, hm⟩ := h ((t1, t2), m) (by simp)
    simp only at hf1 hf2 hm
    subst hm
    obtain ⟨r, hr⟩ := ivt_floats t1 t2 f hf1 hf2
    obtain ⟨rs, hrs, hlen⟩ := ih (fun y hy => h y (by simp [hy]))
    refine ⟨r :: rs, ?_, by simp [hlen]⟩
    simp only [interpTokens, hr, hrs]

theorem rebuild_ok (ps : List (List Char)) : ∀ (rs : List String),
    rs.length = (ps.filter isfloatL).length →
    ∃ out, rebuildResult ps rs = Except.ok out := by
  induction ps with
  | nil => exact fun rs _ => ⟨[], rfl⟩
  | cons p ps2 ih =>
    intro rs hlen
    by_cases hp : isfloatL p
    · rw [List.filter_cons_of_pos (by simp [hp])] at hlen
      cases rs with
      | nil => simp at hlen
      | cons r rt =>
        obtain ⟨out, hout⟩ := ih rt (by simpa using hlen)
        refine ⟨r.data ++ out, ?_⟩
        simp only [rebuildResult, if_pos hp, hout]
    · rw [List.filter_cons_of_neg (by simp [hp])] at hlen
      obtain ⟨out, hout⟩ := ih rs hlen
      refine ⟨p ++ out, ?_⟩
      simp only [rebuildResult, if_neg hp, hout]

/-- C6: differing non-numeric tokens do NOT raise: interpolate(s1,s2,f)
    depends on s2 only through its numeric tokens (any s2-variant with
    the same numeric tokens gives the identical result), and it succeeds
    exactly when the numeric token counts of s1 and s2 agree; s1's
    non-numeric pieces pass through into the result.  (Amended from the
    claim: the source never compares non-numeric tokens of s1 and s2 -
    interpolate_value_token's equality check is unreachable from
    interpolate_values because only float-parsing tokens are paired.) -/
theorem C6_s2_text_ignored (s1 s2 s2p : String) (f : ℚ) :
    (partsOf s2 = partsOf s2p →
      interpolate_values s1 s2 f none = interpolate_values s1 s2p f none)
    ∧ (isOkE (interpolate_values s1 s2 f none) = true ↔
      (partsOf s1).length = (partsOf s2).length) := by
  constructor
  · intro h
    simp only [interpolate_values, h]
  · constructor
    · intro hok
      by_contra hne
      have herr : interpolate_values s1 s2 f none = Except.error "Cannot interpolate" := by
        simp only [interpolate_values]
        rw [if_pos (by exact hne)]
      rw [herr] at hok
      simp [isOkE] at hok
    · intro hlen
      have hlen2 : ((splitNums s1.data).filter isfloatL).length = (partsOf s2).length := by
        simpa [partsOf] using hlen
      have hmem : ∀ x ∈ (((((splitNums s1.data).filter isfloatL).map String.mk).zip
          (partsOf s2)).map (fun x => (x, (0 : ℚ)))),
          isfloat x.1.1 = true ∧ isfloat x.1.2 = true ∧ x.2 = 0 := by
        intro x hx
        obtain ⟨y, hy, rfl⟩ := List.mem_map.mp hx
        obtain ⟨hy1, hy2⟩ := List.of_mem_zip hy
        refine ⟨?_, ?_, rfl⟩
        · obtain ⟨p, hp, hpe⟩ := List.mem_map.mp hy1
          have hfp := List.of_mem_filter hp
          show isfloat y.1 = true
          rw [← hpe]
          simpa [isfloat, parseFloatS, isfloatL] using hfp
        · simp only [partsOf] at hy2
          obtain ⟨p, hp, hpe⟩ := List.mem_map.mp hy2
          have hfp := List.of_mem_filter hp
          show isfloat y.2 = true
          rw [← hpe]
          simpa [isfloat, parseFloatS, isfloatL] using hfp
      obtain ⟨rs, hrs, hrslen⟩ := interpTokens_ok f _ hmem
      have hrslen2 : rs.length = ((splitNums s1.data).filter isfloatL).length := by
        rw [hrslen]
        simp only [List.length_map, List.length_zip]
        rw [← hlen2, min_self]
      obtain ⟨out, hout⟩ := rebuild_ok _ rs hrslen2
      simp only [interpolate_values]
      rw [if_neg (by simp only [List.length_map]; rw [hlen2]; simp)]
      rw [hrs]
      dsimp only
      rw [hout]
      rfl

/-- C5 counterexample: identical numeric endpoints are parsed and
    reformatted, so interpolate("150","150",f) returns "150.000", not the
    input string "150" as the claim states. -/
theorem C5_counterexample :
    interpolate_values "150" "150" (1/2) none = Except.ok "150.000"
    ∧ ("150.000" : String) ≠ "150" := by
  constructor
  · simp [interpolate_values, splitNums, goSplit, matchNum, matchNumBody, partsOf, isfloatL,
      interpolate_value_token, parseFloatS, parseFloat, digitsToNat, pmod, format3,
      round_eq, zpad3, rebuildResult, interpTokens]
    norm_num
    rfl
  · decide

/-- C5 witness: the amended round-trip theorem evaluated on a string with
    no numeric tokens. -/
theorem C5_witness :
    interpolate_values "abc" "abc" (1/2) none = Except.ok "abc" :=
  C5_no_numeric_token_id "abc" (1/2) (by decide)

/-- C6 counterexample: s1 = "a 1" and s2 = "b 1" have matching numeric
    token counts but different non-numeric tokens; no error is raised:
    the result "a 1.000" carries s1's non-numeric text, contradicting the
    claim that differing non-numeric tokens raise an error. -/
theorem C6_counterexample :
    interpolate_values "a 1" "b 1" (1/2) none = Except.ok "a 1.000" := by
  simp [interpolate_values, splitNums, goSplit, matchNum, matchNumBody, partsOf, isfloatL,
    interpolate_value_token, parseFloatS, parseFloat, digitsToNat, pmod, format3,
    round_eq, zpad3, rebuildResult, interpTokens]
  rfl

/-- C6 witness: the amended theorem evaluated at s1 = "a 1", s2 = "b 1",
    s2-variant = "c 1". -/
theorem C6_witness :
    interpolate_values "a 1" "b 1" (1/2) none = interpolate_values "a 1" "c 1" (1/2) none
    ∧ (isOkE (interpolate_values "a 1" "b 1" (1/2) none) = true ↔
      (partsOf "a 1").length = (partsOf "b 1").length) :=
  ⟨(C6_s2_text_ignored "a 1" "b 1" "c 1" (1/2)).1 (by decide),
   (C6_s2_text_ignored "a 1" "b 1" "c 1" (1/2)).2⟩

/-- Resetting via a nonempty animator list restores the last stored
    original attribute map, regardless of the current state. -/
theorem reset_nonempty_const (a : Animator) (anims : List Animator) (m m2 : AttrMap) :
    reset_target_attrs (a :: anims) m = reset_target_attrs (a :: anims) m2 := rfl

/-- motion_compile leaves a node without pending accumulators alone. -/
theorem noDM_compile (m : AttrMap) (h1 : aget m "data-motion-translate" = none)
    (h2 : aget m "data-motion-rotate" = none) : motion_compile_attrs m = m := by
  simp only [motion_compile_attrs, h1, h2]

/-- A snapshot of the empty document. -/
theorem snapshot_nil (t : ℚ) : snapshot [] t = Except.ok [] := rfl

/-- C2: two successive snapshot queries at the same t produce the same
    fully resolved document, provided every node carrying one of the
    engine's data-motion scratch attributes has at least one animator
    (equivalently, animator-less nodes are free of data-motion-translate
    and data-motion-rotate).  The Reset pass restores every animated
    node's attributes from the stored originals, making the cycle a pure
    function of t; nodes without animators are never reset, so an
    author-written data-motion attribute there would accumulate (see the
    counterexample).  (Amended from the claim: idempotence holds for all
    documents except that pathological shape.) -/
theorem C2_snapshot_idempotent (t : ℚ) (doc : Doc) : ∀ (d1 : Doc),
    (∀ n ∈ doc, n.animators = [] →
      aget n.attrs "data-motion-translate" = none ∧ aget n.attrs "data-motion-rotate" = none) →
    snapshot doc t = Except.ok d1 →
    snapshot d1 t = Except.ok d1 := by
  induction doc with
  | nil =>
    intro d1 hwf h
    rw [snapshot_nil] at h
    obtain rfl : ([] : Doc) = d1 := by
      simpa using h
    exact snapshot_nil t
  | cons n ns ih =>
    intro d1 hwf h
    simp only [snapshot, List.map_cons, apply_phase] at h
    rcases happly : apply_all n.tag n.animators t (reset_target_attrs n.animators n.attrs)
      with e | a
    · rw [happly] at h
      simp at h
    · rw [happly] at h
      rcases hrest : apply_phase t (ns.map fun n2 =>
          { n2 with attrs := reset_target_attrs n2.animators n2.attrs }) with e | arest
      · rw [hrest] at h
        simp at h
      · rw [hrest] at h
        simp only [List.map_cons] at h
        obtain rfl : ({ n with attrs := motion_compile_attrs a } ::
            arest.map (fun n2 => { n2 with attrs := motion_compile_attrs n2.attrs })) = d1 := by
          simpa using h
        have htail : snapshot (arest.map
            (fun n2 => { n2 with attrs := motion_compile_attrs n2.attrs })) t
            = Except.ok (arest.map
              (fun n2 => { n2 with attrs := motion_compile_attrs n2.attrs })) := by
          apply ih
          · intro n2 hn2 hanim
            exact hwf n2 (by simp [hn2]) hanim
          · simp only [snapshot, hrest]
        have hhead : ∃ a2, apply_all n.tag n.animators t
            (reset_target_attrs n.animators (motion_compile_attrs a)) = Except.ok a2
            ∧ motion_compile_attrs a2 = motion_compile_attrs a := by
          cases hanim : n.animators with
          | nil =>
            have ha : n.attrs = a := by
              rw [hanim] at happly
              simpa [apply_all, reset_target_attrs] using happly
            obtain ⟨hdm1, hdm2⟩ := hwf n (by simp) hanim
            have hcomp : motion_compile_attrs a = a := by
              rw [← ha]
              exact noDM_compile n.attrs hdm1 hdm2
            refine ⟨a, ?_, rfl⟩
            rw [hcomp]
            simp [apply_all, reset_target_attrs]
          | cons a0 rest =>
            refine ⟨a, ?_, rfl⟩
            rw [reset_nonempty_const a0 rest (motion_compile_attrs a) n.attrs, ← hanim]
            exact happly
        obtain ⟨a2, ha2, hc2⟩ := hhead
        -- second run on the cons
        simp only [snapshot, List.map_cons, apply_phase]
        rcases hrest2 : apply_phase t ((arest.map
            (fun n2 => { n2 with attrs := motion_compile_attrs n2.attrs })).map
            (fun n2 => { n2 with attrs := reset_target_attrs n2.animators n2.attrs }))
            with e | arest2
        · exfalso
          simp only [snapshot, hrest2] at htail
          simp at htail
        · have harest2 : arest2.map (fun n2 => { n2 with attrs := motion_compile_attrs n2.attrs })
              = arest.map (fun n2 => { n2 with attrs := motion_compile_attrs n2.attrs }) := by
            simp only [snapshot, hrest2] at htail
            simpa using htail
          rw [show apply_all ({ n with attrs := motion_compile_attrs a } :
                SNode).tag ({ n with attrs := motion_compile_attrs a } : SNode).animators t
                (reset_target_attrs ({ n with attrs := motion_compile_attrs a } :
                  SNode).animators ({ n with attrs := motion_compile_attrs a } : SNode).attrs)
              = Except.ok a2 from ha2]
          rw [hrest2]
          simp only [List.map_cons, harest2, hc2]

/-- C2 counterexample: an animated document (one set-animator on the
    rect) whose g node carries an author-written data-motion-translate
    attribute but no animator: the first query bakes
    transform = "translate(5 5) " into the g node, and the second query,
    run on the engine's own output state as lxml mutation does, prepends
    the fragment again, so the two queries resolve different attribute
    values and the engine is not idempotent on every animated tree. -/
theorem C2_counterexample :
    snapshot [⟨"g", [("data-motion-translate", "translate(5 5)")], []⟩,
              ⟨"rect", [("id", "r")], [⟨⟨0, 1, "", none, none⟩, [("id", "r")],
                AnimSpec.setval "fill" "red"⟩]⟩] 0
      = Except.ok [⟨"g", [("data-motion-translate", "translate(5 5)"),
                          ("transform", "translate(5 5) ")], []⟩,
                   ⟨"rect", [("id", "r"), ("fill", "red")], [⟨⟨0, 1, "", none, none⟩,
                     [("id", "r")], AnimSpec.setval "fill" "red"⟩]⟩]
    ∧ snapshot [⟨"g", [("data-motion-translate", "translate(5 5)"),
                       ("transform", "translate(5 5) ")], []⟩,
                ⟨"rect", [("id", "r"), ("fill", "red")], [⟨⟨0, 1, "", none, none⟩,
                  [("id", "r")], AnimSpec.setval "fill" "red"⟩]⟩] 0
      = Except.ok [⟨"g", [("data-motion-translate", "translate(5 5)"),
                          ("transform", "translate(5 5) translate(5 5) ")], []⟩,
                   ⟨"rect", [("id", "r"), ("fill", "red")], [⟨⟨0, 1, "", none, none⟩,
                     [("id", "r")], AnimSpec.setval "fill" "red"⟩]⟩]
    ∧ ([[("data-motion-translate", "translate(5 5)"), ("transform", "translate(5 5) ")],
        [("id", "r"), ("fill", "red")]] : List AttrMap)
      ≠ [[("data-motion-translate", "translate(5 5)"),
          ("transform", "translate(5 5) translate(5 5) ")],
         [("id", "r"), ("fill", "red")]] := by
  refine ⟨?_, ?_, by decide⟩
  · simp [snapshot, apply_phase, apply_all, animator_apply, reset_target_attrs,
      get_time_position, gtp_repeatCount, gtp_repeatDur, gtp_final, pmod,
      motion_compile_attrs, aget, aset, agetD, append_attr]
    norm_num
    all_goals decide
  · simp [snapshot, apply_phase, apply_all, animator_apply, reset_target_attrs,
      get_time_position, gtp_repeatCount, gtp_repeatDur, gtp_final, pmod,
      motion_compile_attrs, aget, aset, agetD, append_attr]
    norm_num
    all_goals decide

/-- C2 witness: the amended idempotence theorem evaluated on a concrete
    two-node document with a set-animator. -/
theorem C2_witness :
    snapshot [⟨"rect", [("id", "r")], [⟨⟨0, 1, "", none, none⟩, [("id", "r")],
        AnimSpec.setval "fill" "red"⟩]⟩, ⟨"g", [("class", "x")], []⟩] 0
      = Except.ok [⟨"rect", [("id", "r"), ("fill", "red")], [⟨⟨0, 1, "", none, none⟩,
          [("id", "r")], AnimSpec.setval "fill" "red"⟩]⟩, ⟨"g", [("class", "x")], []⟩]
    ∧ snapshot [⟨"rect", [("id", "r"), ("fill", "red")], [⟨⟨0, 1, "", none, none⟩,
          [("id", "r")], AnimSpec.setval "fill" "red"⟩]⟩, ⟨"g", [("class", "x")], []⟩] 0
      = Except.ok [⟨"rect", [("id", "r"), ("fill", "red")], [⟨⟨0, 1, "", none, none⟩,
          [("id", "r")], AnimSpec.setval "fill" "red"⟩]⟩, ⟨"g", [("class", "x")], []⟩] := by
  have h1 : snapshot [⟨"rect", [("id", "r")], [⟨⟨0, 1, "", none, none⟩, [("id", "r")],
        AnimSpec.setval "fill" "red"⟩]⟩, ⟨"g", [("class", "x")], []⟩] 0
      = Except.ok [⟨"rect", [("id", "r"), ("fill", "red")], [⟨⟨0, 1, "", none, none⟩,
          [("id", "r")], AnimSpec.setval "fill" "red"⟩]⟩, ⟨"g", [("class", "x")], []⟩] := by
    simp [snapshot, apply_phase, apply_all, animator_apply, reset_target_attrs,
      get_time_position, gtp_repeatCount, gtp_repeatDur, gtp_final, pmod,
      motion_compile_attrs, aget, aset, agetD, append_attr]
    norm_num
    all_goals decide
  refine ⟨h1, C2_snapshot_idempotent 0 _ _ ?_ h1⟩
  intro n hn hanim
  simp only [List.mem_cons, List.mem_singleton] at hn
  rcases hn with rfl | rfl | hn
  · simp at hanim
  · exact ⟨rfl, rfl⟩
  · simp at hn

end RAV
